import Mathlib

/-!
Formal model of the mount-lifecycle orchestrator of the filen network-drive
package.  The definitions below are shallow embeddings of the TypeScript
source (`src/index.ts`, `src/utils.ts`, `src/monitor.ts`): asynchronous
steps whose outcome is decided by the outside world (filesystem probes,
HTTP health checks, child-process spawns, the OS random number generator)
are passed in explicitly as environment records, and fallible code is
modelled with `Except`.  Exceptions that the source swallows are modelled
as branches that return normally; exceptions the source propagates are
modelled as `Except.error` results.
-/

/- ------------------------------------------------------------------ -/
/- utils.ts: generateRandomString                                      -/
/- ------------------------------------------------------------------ -/

/-- Alphabet used by `generateRandomString` (utils.ts): the `chars`
constant `"abcdefghijklmnopqrstuvwxyzABCDEFGHIJKLMNOPQRSTUVWXYZ0123456789"`. -/
def randomStringChars : List Char :=
  ("abcdefghijklmnopqrstuvwxyzABCDEFGHIJKLMNOPQRSTUVWXYZ0123456789").toList

/-- Loop of `generateRandomString` (utils.ts).  `n` counts the remaining
iterations, `i` is the loop index and `cursor` the running accumulator.
The JavaScript reads `randomBytes[i]!`; the byte array obtained from
`crypto.randomBytes(length + 2)` is passed in as the list `randomBytes`,
and the (in the source always in-bounds) index operation is modelled with
`List.getD`. -/
def generateRandomStringGo (randomBytes : List Nat) : Nat → Nat → Nat → List Char
  | 0, _, _ => []
  | n + 1, i, cursor =>
    let cursor' := cursor + randomBytes.getD i 0
    randomStringChars.getD (cursor' % randomStringChars.length) 'a' ::
      generateRandomStringGo randomBytes n (i + 1) cursor'

/-- Shallow embedding of `generateRandomString(length)` (utils.ts): builds a
string of `length` characters, each one `chars[cursor % chars.length]` where
`cursor` accumulates the random bytes. -/
def generateRandomString (randomBytes : List Nat) (length : Nat) : String :=
  String.mk (generateRandomStringGo randomBytes length 0 0)

/- ------------------------------------------------------------------ -/
/- utils.ts: downloadBinaryAndVerifySHA512                             -/
/- ------------------------------------------------------------------ -/

/-- Filesystem model for the binary download: an association list from
paths to file contents. -/
abbrev DLFS := List (String × String)

/-- Lookup of a path in the modelled filesystem. -/
def dlfsGet (fs : DLFS) (path : String) : Option String :=
  match fs with
  | [] => none
  | (p, c) :: rest => if p = path then some c else dlfsGet rest path

/-- Remove a file from the modelled filesystem. -/
def dlfsRemove (fs : DLFS) (path : String) : DLFS :=
  match fs with
  | [] => []
  | (p, c) :: rest =>
    if p = path then dlfsRemove rest path else (p, c) :: dlfsRemove rest path

/-- Write a file (overwriting) in the modelled filesystem. -/
def dlfsSet (fs : DLFS) (path content : String) : DLFS :=
  (path, content) :: dlfsRemove fs path

/-- Errors `downloadBinaryAndVerifySHA512` can propagate. -/
inductive DLError where
  /-- The axios request or the write stream failed. -/
  | networkFailed : DLError
  /-- The `Hash verification failed for ...` error thrown when the computed
  hash differs from the expected one. -/
  | hashMismatch (expected computed : String) : DLError
  deriving DecidableEq

/-- Shallow embedding of `downloadBinaryAndVerifySHA512(url, destination,
neededHash)` (utils.ts).  `sha512hex` stands for the hex digest of the
SHA-512 hash computed over the streamed file content; `tmpPath` is the
uniquely named `` `${uuidv4()}.tmp` `` file placed in the directory of
`destination`; `downloadResult` is `some content` when the network request
and the write stream succeed and `none` when they fail (in which case the
partially written temporary file `partial` is left behind).  On a hash
mismatch the source throws before the `fs.move`, leaving the temporary
file but never touching `destination`; on a match `fs.move(tmpPath,
destination, { overwrite: true })` renames the verified file into place. -/
def downloadBinaryAndVerifySHA512 (sha512hex : String → String)
    (destination neededHash tmpPath : String)
    (downloadResult : Option String) (partial_ : String) (fs : DLFS) :
    Except DLError Unit × DLFS :=
  match downloadResult with
  | none => (Except.error DLError.networkFailed, dlfsSet fs tmpPath partial_)
  | some content =>
    let fs1 := dlfsSet fs tmpPath content
    let computed := sha512hex content
    if computed ≠ neededHash then
      (Except.error (DLError.hashMismatch neededHash computed), fs1)
    else
      (Except.ok (), dlfsSet (dlfsRemove fs1 tmpPath) destination content)

/- ------------------------------------------------------------------ -/
/- utils.ts: getAvailableCacheSize and the cache size bound            -/
/- ------------------------------------------------------------------ -/

/-- Shallow embedding of `getAvailableCacheSize(cachePath)` (utils.ts):
`fs.statfs` either fails (`none`, in which case the source resolves the
fallback `12884901888`) or yields a block size and a count of available
blocks whose product is the free space. -/
def getAvailableCacheSize (statfsResult : Option (Nat × Nat)) : Nat :=
  match statfsResult with
  | none => 12884901888
  | some (bsize, bavail) => bavail * bsize

/-- Cache size bound computed at the top of `rcloneArgs` (index.ts):
`Math.floor(availableCacheSize / (1024 * 1024 * 1024)) - osDiskBufferGib`
with `osDiskBufferGib = 5`, falling back to `osDiskBufferGib` when the
difference is not positive.  `availableCacheSize` is an exact integer
below 2^53, and a JavaScript division by the power of two 2^30 followed
by `Math.floor` equals Nat floor division. -/
def rcloneCacheSizeGib (availableCacheSize : Nat) : Int :=
  let osDiskBufferGib : Int := 5
  let availableCacheSizeGib : Int :=
    ((availableCacheSize / (1024 * 1024 * 1024) : Nat) : Int) - osDiskBufferGib
  if availableCacheSizeGib > 0 then availableCacheSizeGib else osDiskBufferGib

/- ------------------------------------------------------------------ -/
/- Data model of the NetworkDrive class (index.ts)                     -/
/- ------------------------------------------------------------------ -/

/-- Platform families distinguished by `process.platform` comparisons in
the source. -/
inductive Platform where
  | win32 : Platform
  | linux : Platform
  | darwin : Platform
  /-- Any other value of `process.platform`. -/
  | otherPlatform : Platform
  deriving DecidableEq

/-- Immutable per-instance configuration of `NetworkDrive` (constructor
fields of index.ts) together with the ambient `process.platform` and
`os.homedir()` values. -/
structure NDConfig where
  platform : Platform
  mountPoint : String
  homedir : String
  readOnly : Bool
  logFilePath : Option String
  tryToInstallDependenciesOnStart : Bool
  deriving DecidableEq

/-- Model of a `ChildProcess` handle as the source uses it: only the
(possibly undefined) `pid` is read. -/
structure ProcHandle where
  pid : Option Nat
  deriving DecidableEq

/-- Model of the `WebDAVServer` object: the source only reads its
`serverInstance` field (truthy once the server has started). -/
structure WebDAVHandle where
  serverInstance : Bool
  deriving DecidableEq

/-- Mutable fields of the `NetworkDrive` class (index.ts). -/
structure NDState where
  webdavServer : Option WebDAVHandle
  rcloneProcess : Option ProcHandle
  monitorProcess : Option Unit
  webdavUsername : String
  webdavPassword : String
  webdavPort : Nat
  webdavEndpoint : String
  active : Bool
  rclonePort : Nat
  deriving DecidableEq

/-- Field initializers of the `NetworkDrive` class. -/
def initialNDState : NDState where
  webdavServer := none
  rcloneProcess := none
  monitorProcess := none
  webdavUsername := "admin"
  webdavPassword := "admin"
  webdavPort := 1905
  webdavEndpoint := "http://127.0.0.1:1905"
  active := false
  rclonePort := 1906

/-- Observable events of a `start`/`stop` execution, in program order:
entry into `stop()`, the kill/unmount commands of `cleanupRClone`,
`webdavServer.stop(true)`, the free-port allocation, `webdavServer.start()`,
the atomic rclone config write, the cache directory removal and
re-creation, and the two child-process spawns.  The rclone spawn event
carries the state of the cache directory at spawn time (`none` = deleted,
`some l` = exists with entries `l`) and the argument list handed to the
engine. -/
inductive NDEvent where
  | stopCall : NDEvent
  | killSigterm : NDEvent
  | killByPid (pid : Nat) : NDEvent
  | killByName : NDEvent
  | unmountCmd : NDEvent
  | webdavStopCall : NDEvent
  | portAlloc (port : Nat) : NDEvent
  | webdavStart : NDEvent
  | configWrite : NDEvent
  | cacheRm : NDEvent
  | cacheEnsureDir : NDEvent
  | spawnMonitorProc : NDEvent
  | spawnRCloneProc (cacheDir : Option (List String)) (args : List String) : NDEvent
  deriving DecidableEq

/-- Errors thrown inside `start`, `stop` and their callees (index.ts). -/
inductive NDError where
  | winFSPNotInstalled : NDError
  | fuse3NotInstalled : NDError
  | fuseTNotInstalled : NDError
  | driveLetterExists : NDError
  | onlyAbsolutePathsSupported : NDError
  | outsideHomeDirectory : NDError
  | outsideUserDirectory : NDError
  | mountPointDoesNotExist : NDError
  | mountPointNotEmpty : NDError
  | noFreePort : NDError
  | noFreePortRC : NDError
  /-- Rejection of the external `webdavServer.start()`. -/
  | webdavStartFailed : NDError
  /-- Rejection of the external `webdavServer.stop(true)`. -/
  | webdavStopFailed : NDError
  /-- Failure of `getRCloneBinaryPath()` (download or hash record miss). -/
  | getBinaryFailed : NDError
  /-- Failure of the `rclone obscure` command in `obscureRClonePassword`. -/
  | obscureFailed : NDError
  /-- Failure of `writeFileAtomic` in `writeRCloneConfig`. -/
  | writeConfigFailed : NDError
  | binaryNotFound : NDError
  | configNotFound : NDError
  /-- Rejection of `fs.rm(cachePath, ...)`. -/
  | cacheRmFailed : NDError
  /-- Rejection of `fs.ensureDir(cachePath)`. -/
  | ensureDirFailed : NDError
  /-- Rejection of `fs.stat(this.logFilePath)`. -/
  | logStatFailed : NDError
  /-- Rejection of `fs.unlink(this.logFilePath)`. -/
  | logUnlinkFailed : NDError
  | monitorSpawnError : NDError
  | monitorSpawnExit : NDError
  | rcloneSpawnError : NDError
  | rcloneSpawnExit : NDError
  /-- The `Could not start network drive (timeout).` error. -/
  | startTimeout : NDError
  /-- The `Could not start network drive (not active).` error. -/
  | notActiveAfterSpawn : NDError
  /-- Any error propagated out of the optional dependency installation
  (`installFuseTMacOS` / `installWinFSPWindows`). -/
  | installDepsFailed : NDError
  deriving DecidableEq

/-- Error message strings of the validation and lifecycle errors thrown in
`start` (index.ts), parametrized by the mount point interpolated into
them. -/
def ndErrorMessage (mountPoint : String) : NDError → String
  | NDError.winFSPNotInstalled => "WinFSP not installed."
  | NDError.fuse3NotInstalled => "FUSE3 not installed."
  | NDError.fuseTNotInstalled => "FUSE-T not installed."
  | NDError.driveLetterExists =>
    "Cannot mount network drive at " ++ mountPoint ++ ": Drive letter exists."
  | NDError.onlyAbsolutePathsSupported => "Only absolute paths for mount points are supported."
  | NDError.outsideHomeDirectory => "Cannot mount to a directory outside of your home directory."
  | NDError.outsideUserDirectory => "Cannot mount to a directory outside of your user directory."
  | NDError.mountPointDoesNotExist =>
    "Cannot mount network drive at " ++ mountPoint ++ ": Mount point does not exist."
  | NDError.mountPointNotEmpty =>
    "Cannot mount network drive at " ++ mountPoint ++ ": Mount point not empty."
  | NDError.noFreePort => "Could not find a free port."
  | NDError.noFreePortRC => "Could not find a free port for RC."
  | NDError.startTimeout => "Could not start network drive (timeout)."
  | NDError.notActiveAfterSpawn => "Could not start network drive (not active)."
  | NDError.rcloneSpawnExit => "Could not start network drive (exit)."
  | NDError.monitorSpawnExit => "Could not spawn monitor process (exit)."
  | NDError.monitorSpawnError => "Could not spawn monitor process (spawn)."
  | _ => ""

/- ------------------------------------------------------------------ -/
/- utils.ts: mount point probes                                        -/
/- ------------------------------------------------------------------ -/

/-- Result of `fs.stat` on the mount point: the type predicates the source
reads. -/
structure FileStatKind where
  isDirectory : Bool
  isSymbolicLink : Bool
  isBlockDevice : Bool
  isCharacterDevice : Bool
  isFIFO : Bool
  isSocket : Bool
  deriving DecidableEq

/-- Outcomes of the filesystem calls `isUnixMountPointValid` and
`isUnixMountPointEmpty` perform on the mount point: `exists_` is the
`fs.exists` result, `accessOk` whether `fs.access(R_OK | W_OK)` succeeds,
`stat` the `fs.stat` result (`none` when it throws) and `readdir` the
`fs.readdir` result (`none` when it throws). -/
structure MountPointProbe where
  exists_ : Bool
  accessOk : Bool
  stat : Option FileStatKind
  readdir : Option (List String)
  deriving DecidableEq

/-- Shallow embedding of `isUnixMountPointValid(mountPoint)` (utils.ts):
false when the path does not exist, is not read/write accessible, `stat`
throws, or the path is not a plain directory; any thrown error is caught
and turned into false. -/
def isUnixMountPointValid (p : MountPointProbe) : Bool :=
  if p.exists_ = false then false
  else if p.accessOk = false then false
  else
    match p.stat with
    | none => false
    | some st =>
      st.isDirectory && !st.isSymbolicLink && !st.isBlockDevice &&
        !st.isCharacterDevice && !st.isFIFO && !st.isSocket

/-- Shallow embedding of `isUnixMountPointEmpty(mountPoint)` (utils.ts):
false when the path does not exist, is not accessible or `readdir` throws;
otherwise whether the directory listing is empty. -/
def isUnixMountPointEmpty (p : MountPointProbe) : Bool :=
  if p.exists_ = false then false
  else if p.accessOk = false then false
  else
    match p.readdir with
    | none => false
    | some dir => dir.length = 0

/- ------------------------------------------------------------------ -/
/- index.ts: readiness probe                                           -/
/- ------------------------------------------------------------------ -/

/-- Outcomes of the three concurrent checks of `isMountActuallyActive`:
`mountExists` is the `checkIfMountExists` result, `webdavOnline` the
`isWebDAVOnline` result (an `httpHealthCheck` for status 401 that never
throws), and `vfsHttp` the `POST /vfs/list` exchange: `none` when the HTTP
request fails, `some none` when it succeeds but the response body has no
`vfses` array (so the unchecked cast makes `vfsList()` return `undefined`),
and `some (some l)` when it yields the list `l`. -/
structure ProbeEnv where
  mountExists : Bool
  webdavOnline : Bool
  vfsHttp : Option (Option (List String))
  deriving DecidableEq

/-- Shallow embedding of `vfsList()` (index.ts): a failed request is caught
and yields `[]`; a malformed response yields `undefined` (modelled as
`none`). -/
def vfsList (vfsHttp : Option (Option (List String))) : Option (List String) :=
  match vfsHttp with
  | none => some []
  | some none => none
  | some (some l) => some l

/-- Shallow embedding of `isMountActuallyActive()` (index.ts): false when
`this.rcloneProcess` is null; otherwise the three checks run and the probe
returns false unless the mount path exists, the WebDAV endpoint is online
and the vfs list contains `Filen:`.  Calling `.includes` on the
`undefined` returned by a malformed `vfsList()` response throws inside the
try block and is caught, returning false; the function never throws. -/
def isMountActuallyActive (st : NDState) (p : ProbeEnv) : Bool :=
  match st.rcloneProcess with
  | none => false
  | some _ =>
    if !p.mountExists || !p.webdavOnline then false
    else
      match vfsList p.vfsHttp with
      | none => false
      | some l => decide (("Filen:") ∈ l)

/- ------------------------------------------------------------------ -/
/- index.ts: getStats                                                  -/
/- ------------------------------------------------------------------ -/

/-- Entry of `coreData.transferring` as received on the wire: each field
is `some v` when it has the expected JavaScript type and `none`
otherwise. -/
structure RCTransferRaw where
  name : Option String
  size : Option Int
  speed : Option Int
  deriving DecidableEq

/-- Wire shape of the `POST /core/stats` response: `transferring` is
`none` when the field is missing, null or not an array. -/
structure RCCoreStatsE where
  transferring : Option (List RCTransferRaw)
  deriving DecidableEq

/-- Wire shape of `vfsData.diskCache`: each counter is `some v` when the
field is a number. -/
structure RCDiskCacheE where
  uploadsInProgress : Option Int
  uploadsQueued : Option Int
  erroredFiles : Option Int
  deriving DecidableEq

/-- Wire shape of the `POST /vfs/stats` response. -/
structure RCVFSStatsE where
  diskCache : Option RCDiskCacheE
  deriving DecidableEq

/-- Result shape of `getStats()` (types.ts `GetStats`).  The invalid
`diskCache` branch of the source returns the raw `coreData.transferring`
entries unmapped, so the transfer list keeps the raw field shape here. -/
structure GetStatsE where
  uploadsInProgress : Int
  uploadsQueued : Int
  erroredFiles : Int
  transfers : List RCTransferRaw
  deriving DecidableEq

/-- Zeroed `GetStats` result returned when the session is inactive or a
remote-control query failed. -/
def zeroGetStats : GetStatsE where
  uploadsInProgress := 0
  uploadsQueued := 0
  erroredFiles := 0
  transfers := []

/-- Shallow embedding of `getStats()` (index.ts).  `core` and `vfs` are
the two `axios.post` results (`none` = rejected); `Promise.all` rejects as
soon as either does, and the catch block returns the zeroed result.  On
success the `diskCache` counters are validated field by field; when valid,
the transfer entries are sanitized with typeof checks and defaults. -/
def getStats (st : NDState) (core : Option RCCoreStatsE) (vfs : Option RCVFSStatsE) :
    GetStatsE :=
  if st.active = false then zeroGetStats
  else
    match core, vfs with
    | some coreData, some vfsData =>
      match vfsData.diskCache with
      | none =>
        { uploadsInProgress := 0, uploadsQueued := 0, erroredFiles := 0,
          transfers := coreData.transferring.getD [] }
      | some dc =>
        match dc.erroredFiles, dc.uploadsInProgress, dc.uploadsQueued with
        | some ef, some up, some uq =>
          { uploadsInProgress := up, uploadsQueued := uq, erroredFiles := ef,
            transfers :=
              (coreData.transferring.getD []).map (fun t =>
                { name := some (t.name.getD ("")),
                  size := some (t.size.getD 0),
                  speed := some (t.speed.getD 0) }) }
        | _, _, _ =>
          { uploadsInProgress := 0, uploadsQueued := 0, erroredFiles := 0,
            transfers := coreData.transferring.getD [] }
    | _, _ => zeroGetStats

/- ------------------------------------------------------------------ -/
/- index.ts: cleanupRClone and stop                                    -/
/- ------------------------------------------------------------------ -/

/-- Shallow embedding of `cleanupRClone()` (index.ts).  Every step is
wrapped so that its own failure is swallowed (`try { ... } catch {}` on
the stream teardown, `.catch(() => {})` on `killProcessByPid`,
`killProcessByName` and the unmount command), so the function only emits
events and never fails: when a tracked process handle exists it receives
`SIGTERM` and, when it has a pid, a `killProcessByPid`; a
`killProcessByName` always follows; on linux and darwin the platform
unmount command runs last. -/
def cleanupRClone (cfg : NDConfig) (st : NDState) : List NDEvent :=
  (match st.rcloneProcess with
   | some proc =>
     NDEvent.killSigterm ::
       (match proc.pid with
        | some pid => [NDEvent.killByPid pid]
        | none => [])
   | none => []) ++
  [NDEvent.killByName] ++
  (if cfg.platform = Platform.linux ∨ cfg.platform = Platform.darwin then
    [NDEvent.unmountCmd]
  else [])

/-- Outcomes of the external calls `stop()` performs: the
`isWebDAVOnline()` health check (never throws) and the external
`webdavServer.stop(true)` call (which can reject). -/
structure StopEnv where
  webdavOnline : Bool
  webdavStopOk : Bool
  deriving DecidableEq

/-- Shallow embedding of `stop()` (index.ts): runs `cleanupRClone`, then
stops the WebDAV server when it is online and has a `serverInstance`; a
rejection of that external stop is logged and rethrown, leaving the state
fields untouched.  Otherwise `webdavServer`, `rcloneProcess` and `active`
are reset. -/
def ndStop (cfg : NDConfig) (st : NDState) (env : StopEnv) :
    Except NDError Unit × NDState × List NDEvent :=
  let ev1 := NDEvent.stopCall :: cleanupRClone cfg st
  let hasInstance :=
    match st.webdavServer with
    | some s => s.serverInstance
    | none => false
  if env.webdavOnline && hasInstance then
    if env.webdavStopOk then
      (Except.ok (),
        { st with webdavServer := none, rcloneProcess := none, active := false },
        ev1 ++ [NDEvent.webdavStopCall])
    else
      (Except.error NDError.webdavStopFailed, st, ev1 ++ [NDEvent.webdavStopCall])
  else
    (Except.ok (),
      { st with webdavServer := none, rcloneProcess := none, active := false },
      ev1)

/- ------------------------------------------------------------------ -/
/- index.ts: rcloneArgs                                                -/
/- ------------------------------------------------------------------ -/

/-- Shallow embedding of `rcloneArgs({ cachePath, configPath })`
(index.ts).  `availableCacheSize` is the `getAvailableCacheSize(cachePath)`
result and `macFUSEInstalled` the `isMacFUSEInstalled()` result; the
argument strings are built exactly as in the source. -/
def rcloneArgs (cfg : NDConfig) (cachePath configPath : String)
    (rclonePort : Nat) (availableCacheSize : Nat) (macFUSEInstalled : Bool) :
    List String :=
  let cacheSize := rcloneCacheSizeGib availableCacheSize
  [("mount Filen: \"" ++ cfg.mountPoint ++ "\""),
   ("--config \"" ++ configPath ++ "\""),
   ("--vfs-cache-mode full")] ++
  (if cfg.readOnly then [("--read-only")] else []) ++
  [("--cache-dir \"" ++ cachePath ++ "\""),
   ("--vfs-cache-max-size \"" ++ toString cacheSize ++ "Gi\""),
   ("--vfs-cache-min-free-space 5Gi"),
   ("--vfs-cache-max-age 720h"),
   ("--vfs-cache-poll-interval 1m"),
   ("--dir-cache-time 3s"),
   ("--cache-info-age 5s"),
   ("--no-gzip-encoding"),
   ("--use-mmap"),
   ("--disable-http2"),
   ("--file-perms 0666"),
   ("--dir-perms 0777"),
   ("--use-server-modtime"),
   ("--vfs-read-chunk-size 128Mi"),
   ("--buffer-size 0"),
   ("--vfs-read-ahead 1024Mi"),
   ("--vfs-read-chunk-size-limit 0"),
   ("--no-checksum"),
   ("--transfers 16"),
   ("--vfs-fast-fingerprint"),
   ("--rc"),
   ("--rc-addr \"127.0.0.1:" ++ toString rclonePort ++ "\"")] ++
  (match cfg.logFilePath with
   | some logPath => [("--log-file \"" ++ logPath ++ "\"")]
   | none => []) ++
  [("--devname Filen")] ++
  (if cfg.platform = Platform.win32 then
    [("--volname \\\\Filen\\Filen")]
  else [("--volname Filen")]) ++
  (if cfg.platform = Platform.win32 then
    [("-o FileSecurity=\"D:P(A;;FA;;;WD)\""), ("--network-mode")]
  else []) ++
  (if cfg.platform = Platform.darwin then
    (if macFUSEInstalled then [("-o jail_symlinks")]
     else [("-o nomtime"), ("-o backend=nfs"), ("-o location=Filen"), ("-o nonamedattr")])
  else [])

/- ------------------------------------------------------------------ -/
/- index.ts: spawnRClone                                               -/
/- ------------------------------------------------------------------ -/

/-- Outcome of the monitor (watchdog) process spawn promise: an `error`
event, an `exit` event, or a spawn that is still alive after the one
second grace period. -/
inductive MonitorSpawnOutcome where
  | errorEvent : MonitorSpawnOutcome
  | exitEvent : MonitorSpawnOutcome
  | spawnOk : MonitorSpawnOutcome
  deriving DecidableEq

/-- Outcome of the rclone spawn promise, which races the 1 s readiness
polling interval, the process `error`/`exit` events and the 30 s timeout:
either some poll of `isMountActuallyActive` returned true, or the process
errored or exited (nulling the handle), or the timeout fired, in which
case a final probe runs and on failure `stop()` is awaited before
rejecting. -/
inductive RCloneSpawnOutcome where
  | becameActive : RCloneSpawnOutcome
  | errorEvent : RCloneSpawnOutcome
  | exitEvent : RCloneSpawnOutcome
  | timeout (finalProbe : ProbeEnv) (stopEnv : StopEnv) : RCloneSpawnOutcome
  deriving DecidableEq

/-- Outcomes of the external calls `spawnRClone()` performs, in program
order: resolution of the binary/config/cache/monitor-script paths (only
`getRCloneBinaryPath` can reject, abstracted as `getBinaryOk`), the two
existence checks, the cache directory removal and re-creation, the log
trim (`fs.stat` result in bytes, `none` when it throws), the monitor
spawn, the free RC port search, the `fs.statfs` data for
`getAvailableCacheSize`, the `isMacFUSEInstalled()` answer, the pid of
the spawned engine process and the spawn outcome. -/
structure SpawnEnv where
  getBinaryOk : Bool
  configPath : String
  cachePath : String
  binaryExists : Bool
  rcloneConfigExists : Bool
  cacheRmOk : Bool
  ensureDirOk : Bool
  logExists : Bool
  logStat : Option Nat
  logUnlinkOk : Bool
  monitorSpawn : MonitorSpawnOutcome
  rcPort : Option Nat
  statfsResult : Option (Nat × Nat)
  macFUSEInstalled : Bool
  spawnedPid : Option Nat
  rcloneSpawn : RCloneSpawnOutcome
  deriving DecidableEq

/-- Tail of `spawnRClone()` after the monitor process is ensured: allocate
the RC port, build the argument list and spawn the engine.  The spawn
event records the cache directory state at spawn time — by this point the
cache directory has been removed and re-created empty (`some []`). -/
def spawnRCloneAfterMonitor (cfg : NDConfig) (st : NDState) (env : SpawnEnv)
    (ev : List NDEvent) : Except NDError Unit × NDState × List NDEvent :=
  match env.rcPort with
  | none => (Except.error NDError.noFreePortRC, st, ev)
  | some rcPort =>
    let st1 := { st with rclonePort := rcPort }
    let args := rcloneArgs cfg env.cachePath env.configPath rcPort
      (getAvailableCacheSize env.statfsResult) env.macFUSEInstalled
    let spawnEv := NDEvent.spawnRCloneProc (some []) args
    match env.rcloneSpawn with
    | RCloneSpawnOutcome.becameActive =>
      (Except.ok (), { st1 with rcloneProcess := some ⟨env.spawnedPid⟩ }, ev ++ [spawnEv])
    | RCloneSpawnOutcome.errorEvent =>
      (Except.error NDError.rcloneSpawnError, { st1 with rcloneProcess := none },
        ev ++ [spawnEv])
    | RCloneSpawnOutcome.exitEvent =>
      (Except.error NDError.rcloneSpawnExit, { st1 with rcloneProcess := none },
        ev ++ [spawnEv])
    | RCloneSpawnOutcome.timeout probe stopEnv =>
      let st2 := { st1 with rcloneProcess := some ⟨env.spawnedPid⟩ }
      if isMountActuallyActive st2 probe then (Except.ok (), st2, ev ++ [spawnEv])
      else
        let r := ndStop cfg st2 stopEnv
        ((match r.1 with
          | Except.ok _ => Except.error NDError.startTimeout
          | Except.error e => Except.error e),
          r.2.1, ev ++ [spawnEv] ++ r.2.2)

/-- Shallow embedding of `spawnRClone()` (index.ts): path resolution,
binary and config existence checks, unconditional cache directory removal
and re-creation, log rotation, the watchdog (monitor) process spawn
(skipped when one is already tracked) and the engine spawn. -/
def spawnRClone (cfg : NDConfig) (st : NDState) (env : SpawnEnv) :
    Except NDError Unit × NDState × List NDEvent :=
  if env.getBinaryOk = false then (Except.error NDError.getBinaryFailed, st, [])
  else if env.binaryExists = false then (Except.error NDError.binaryNotFound, st, [])
  else if env.rcloneConfigExists = false then (Except.error NDError.configNotFound, st, [])
  else if env.cacheRmOk = false then
    (Except.error NDError.cacheRmFailed, st, [NDEvent.cacheRm])
  else if env.ensureDirOk = false then
    (Except.error NDError.ensureDirFailed, st, [NDEvent.cacheRm, NDEvent.cacheEnsureDir])
  else
    let ev0 := [NDEvent.cacheRm, NDEvent.cacheEnsureDir]
    let logResult : Except NDError Unit :=
      match cfg.logFilePath with
      | none => Except.ok ()
      | some _ =>
        if env.logExists then
          match env.logStat with
          | none => Except.error NDError.logStatFailed
          | some size =>
            if size > 1024 * 1024 * 10 then
              (if env.logUnlinkOk then Except.ok () else Except.error NDError.logUnlinkFailed)
            else Except.ok ()
        else Except.ok ()
    match logResult with
    | Except.error e => (Except.error e, st, ev0)
    | Except.ok _ =>
      match st.monitorProcess with
      | some _ => spawnRCloneAfterMonitor cfg st env ev0
      | none =>
        match env.monitorSpawn with
        | MonitorSpawnOutcome.errorEvent =>
          (Except.error NDError.monitorSpawnError, st, ev0 ++ [NDEvent.spawnMonitorProc])
        | MonitorSpawnOutcome.exitEvent =>
          (Except.error NDError.monitorSpawnExit, st, ev0 ++ [NDEvent.spawnMonitorProc])
        | MonitorSpawnOutcome.spawnOk =>
          spawnRCloneAfterMonitor cfg { st with monitorProcess := some () } env
            (ev0 ++ [NDEvent.spawnMonitorProc])

/- ------------------------------------------------------------------ -/
/- index.ts: start                                                     -/
/- ------------------------------------------------------------------ -/

/-- Outcomes of the external calls `start()` performs, in program order:
the environment of the unconditional initial `stop()`, the outcome of the
optional dependency installation, the three dependency probes, the
available drive letters (windows), the mount point probe (the POSIX
families), the free WebDAV port search, the two byte streams drawn from
`crypto.randomBytes(34)` for the session credentials, the external
`webdavServer.start()` outcome and resulting `serverInstance`, the
`rclone obscure` result, the atomic config write outcome, the
`spawnRClone` environment and the final readiness probe. -/
structure StartEnv where
  initStop : StopEnv
  /-- Error propagated by the dependency installation, `none` when it
  completed. -/
  installDeps : Option NDError
  winFSPInstalled : Bool
  fuse3Installed : Bool
  fuseTInstalled : Bool
  availableDriveLetters : List String
  mountProbe : MountPointProbe
  webdavPort : Option Nat
  rbUser : List Nat
  rbPass : List Nat
  webdavStartOk : Bool
  serverInstanceAfterStart : Bool
  obscureResult : Option String
  writeConfigOk : Bool
  spawn : SpawnEnv
  finalProbe : ProbeEnv
  deriving DecidableEq

/-- JavaScript `String.prototype.startsWith`, computed structurally on the
character lists. -/
def jsStartsWith (s pre : String) : Bool :=
  List.isPrefixOf pre.toList s.toList

/-- JavaScript `String.prototype.includes` for a single-character needle,
computed structurally on the character list. -/
def jsIncludesChar (s : String) (c : Char) : Bool :=
  s.toList.contains c

/-- Dependency and mount point validation of `start()` (index.ts, the
block between the initial `stop()` and the free-port search): the WinFSP,
FUSE3 and FUSE-T presence checks per platform; on windows the
drive-letter availability check; on the POSIX families the `$` path
check, the home-directory containment checks and the
`isUnixMountPointValid` / `isUnixMountPointEmpty` probes. -/
def startDepMountChecks (cfg : NDConfig) (env : StartEnv) : Except NDError Unit :=
  if cfg.platform = Platform.win32 ∧ env.winFSPInstalled = false then
    Except.error NDError.winFSPNotInstalled
  else if cfg.platform = Platform.linux ∧ env.fuse3Installed = false then
    Except.error NDError.fuse3NotInstalled
  else if cfg.platform = Platform.darwin ∧ env.fuseTInstalled = false then
    Except.error NDError.fuseTNotInstalled
  else if cfg.platform = Platform.win32 then
    if env.availableDriveLetters.contains cfg.mountPoint = false then
      Except.error NDError.driveLetterExists
    else Except.ok ()
  else
    if (cfg.platform = Platform.linux ∨ cfg.platform = Platform.darwin) ∧
        jsIncludesChar cfg.mountPoint '$' then
      Except.error NDError.onlyAbsolutePathsSupported
    else if cfg.platform = Platform.linux ∧
        jsStartsWith cfg.mountPoint (cfg.homedir ++ ("/")) = false then
      Except.error NDError.outsideHomeDirectory
    else if cfg.platform = Platform.darwin ∧
        jsStartsWith cfg.mountPoint (cfg.homedir ++ ("/")) = false then
      Except.error NDError.outsideUserDirectory
    else if isUnixMountPointValid env.mountProbe = false then
      Except.error NDError.mountPointDoesNotExist
    else if isUnixMountPointEmpty env.mountProbe = false then
      Except.error NDError.mountPointNotEmpty
    else Except.ok ()

/-- Checks phase of `start()`: the optional dependency installation
(`installFuseTMacOS` / `addHostsEntry` / `installWinFSPWindows`, run only
when `tryToInstallDependenciesOnStart` is set; their combined outcome is
abstracted as `env.installDeps`) followed by `startDepMountChecks`. -/
def startChecks (cfg : NDConfig) (env : StartEnv) : Except NDError Unit :=
  if cfg.tryToInstallDependenciesOnStart then
    match env.installDeps with
    | some e => Except.error e
    | none => startDepMountChecks cfg env
  else startDepMountChecks cfg env

/-- Shallow embedding of `start()` (index.ts).  The start mutex serializes
the whole body; inside it the source unconditionally awaits `stop()`
first, then validates, allocates a port, generates the session
credentials, creates and starts the WebDAV endpoint, writes the rclone
config, spawns the engine, and reprobes; the catch block logs and
rethrows, so any step error surfaces with the state the failing step left
behind, and `active` is set only after the final probe succeeds. -/
def ndStart (cfg : NDConfig) (st : NDState) (env : StartEnv) :
    Except NDError Unit × NDState × List NDEvent :=
  let r0 := ndStop cfg st env.initStop
  match r0.1 with
  | Except.error e => (Except.error e, r0.2.1, r0.2.2)
  | Except.ok _ =>
    let st0 := r0.2.1
    let ev0 := r0.2.2
    match startChecks cfg env with
    | Except.error e => (Except.error e, st0, ev0)
    | Except.ok _ =>
      match env.webdavPort with
      | none => (Except.error NDError.noFreePort, st0, ev0)
      | some port =>
        let st1 :=
          { st0 with
            webdavPort := port,
            webdavUsername := generateRandomString env.rbUser 32,
            webdavPassword := generateRandomString env.rbPass 32,
            webdavEndpoint := ("http://127.0.0.1:") ++ toString port,
            webdavServer := some { serverInstance := false } }
        let ev1 := ev0 ++ [NDEvent.portAlloc port]
        if env.webdavStartOk = false then
          (Except.error NDError.webdavStartFailed, st1, ev1)
        else
          let st2 := { st1 with webdavServer := some { serverInstance := env.serverInstanceAfterStart } }
          let ev2 := ev1 ++ [NDEvent.webdavStart]
          match env.obscureResult with
          | none => (Except.error NDError.obscureFailed, st2, ev2)
          | some _ =>
            if env.writeConfigOk = false then
              (Except.error NDError.writeConfigFailed, st2, ev2)
            else
              let ev3 := ev2 ++ [NDEvent.configWrite]
              let rs := spawnRClone cfg st2 env.spawn
              match rs.1 with
              | Except.error e => (Except.error e, rs.2.1, ev3 ++ rs.2.2)
              | Except.ok _ =>
                if isMountActuallyActive rs.2.1 env.finalProbe = false then
                  (Except.error NDError.notActiveAfterSpawn, rs.2.1, ev3 ++ rs.2.2)
                else (Except.ok (), { rs.2.1 with active := true }, ev3 ++ rs.2.2)

/- ------------------------------------------------------------------ -/
/- index.ts: the background monitor loop                               -/
/- ------------------------------------------------------------------ -/

/-- Delay in milliseconds between two wake-ups of the background monitor
loop: the `setTimeout(resolve, 15000)` in the `finally` block of
`monitor()` (index.ts). -/
def monitorIntervalMs : Nat := 15000

/-- One wake-up of the background `monitor()` loop (index.ts), as the
try/catch body executes it: when the session is not active it returns at
once; otherwise it re-runs `isMountActuallyActive` and awaits `stop()` on
failure.  The catch block logs any error (including one rethrown by
`stop()`) and returns normally, so the result is always `Except.ok` — the
loop never propagates an exception; the `finally` block then re-arms the
15 s timer. -/
def monitorStep (cfg : NDConfig) (st : NDState) (probe : ProbeEnv) (stopEnv : StopEnv) :
    Except NDError (NDState × List NDEvent) :=
  if st.active = false then Except.ok (st, [])
  else if isMountActuallyActive st probe then Except.ok (st, [])
  else
    let r := ndStop cfg st stopEnv
    match r.1 with
    | Except.ok _ => Except.ok (r.2.1, r.2.2)
    | Except.error _ => Except.ok (r.2.1, r.2.2)

/- ------------------------------------------------------------------ -/
/- Instances and concrete fixtures used by the witnesses               -/
/- ------------------------------------------------------------------ -/

instance instDecEqExcept {e a : Type} [DecidableEq e] [DecidableEq a] :
    DecidableEq (Except e a) := fun x y =>
  match x, y with
  | Except.ok v, Except.ok w =>
    if h : v = w then isTrue (by rw [h]) else isFalse (by simp [h])
  | Except.error v, Except.error w =>
    if h : v = w then isTrue (by rw [h]) else isFalse (by simp [h])
  | Except.ok _, Except.error _ => isFalse (by simp)
  | Except.error _, Except.ok _ => isFalse (by simp)

/-- Concrete configuration used by the witnesses: a linux instance mounting
at `/home/u/drive` inside the home directory `/home/u`. -/
def fixtureCfg : NDConfig where
  platform := Platform.linux
  mountPoint := "/home/u/drive"
  homedir := "/home/u"
  readOnly := false
  logFilePath := none
  tryToInstallDependenciesOnStart := false

/-- Mount point probe of an existing, accessible, empty plain directory. -/
def fixtureMountProbe : MountPointProbe where
  exists_ := true
  accessOk := true
  stat := some { isDirectory := true, isSymbolicLink := false, isBlockDevice := false,
                 isCharacterDevice := false, isFIFO := false, isSocket := false }
  readdir := some []

/-- Readiness probe environment in which all three checks succeed. -/
def fixtureProbeOk : ProbeEnv where
  mountExists := true
  webdavOnline := true
  vfsHttp := some (some [("Filen:")])

/-- Stop environment of a quiescent instance: the WebDAV health check
fails (nothing is listening) and the external stop would succeed. -/
def fixtureStopEnv : StopEnv where
  webdavOnline := false
  webdavStopOk := true

/-- Spawn environment in which every step succeeds. -/
def fixtureSpawnEnv : SpawnEnv where
  getBinaryOk := true
  configPath := "/home/u/.config/@filen/network-drive/rclone.conf"
  cachePath := "/home/u/.config/@filen/network-drive/cache"
  binaryExists := true
  rcloneConfigExists := true
  cacheRmOk := true
  ensureDirOk := true
  logExists := false
  logStat := none
  logUnlinkOk := true
  monitorSpawn := MonitorSpawnOutcome.spawnOk
  rcPort := some 1906
  statfsResult := some (4096, 1000000)
  macFUSEInstalled := false
  spawnedPid := some 42
  rcloneSpawn := RCloneSpawnOutcome.becameActive

/-- Start environment in which every step succeeds. -/
def fixtureStartEnvOk : StartEnv where
  initStop := fixtureStopEnv
  installDeps := none
  winFSPInstalled := false
  fuse3Installed := true
  fuseTInstalled := false
  availableDriveLetters := []
  mountProbe := fixtureMountProbe
  webdavPort := some 2000
  rbUser := [1, 2, 3]
  rbPass := [4, 5, 6]
  webdavStartOk := true
  serverInstanceAfterStart := true
  obscureResult := some ("obscured")
  writeConfigOk := true
  spawn := fixtureSpawnEnv
  finalProbe := fixtureProbeOk

/-- Start environment identical to `fixtureStartEnvOk` except that the
mount point does not exist on the filesystem. -/
def fixtureStartEnvNoMount : StartEnv :=
  { fixtureStartEnvOk with
    mountProbe := { fixtureMountProbe with exists_ := false } }

/- ------------------------------------------------------------------ -/
/- Helper lemmas on the lifecycle functions                            -/
/- ------------------------------------------------------------------ -/

/-- Both non-throwing exits of `ndStop` reset the three session fields;
the only throwing exit leaves the state untouched. -/
theorem ndStop_cases (cfg : NDConfig) (st : NDState) (env : StopEnv) :
    (∃ ev, ndStop cfg st env =
      (Except.ok (), { st with webdavServer := none, rcloneProcess := none, active := false }, ev))
    ∨ (∃ ev, ndStop cfg st env = (Except.error NDError.webdavStopFailed, st, ev)) := by
  simp only [ndStop]
  split
  · split
    · exact Or.inl ⟨_, rfl⟩
    · exact Or.inr ⟨_, rfl⟩
  · exact Or.inl ⟨_, rfl⟩

/-- When `ndStop` returns without error the resulting state is stopped. -/
theorem ndStop_ok_state (cfg : NDConfig) (st : NDState) (env : StopEnv)
    (h : (ndStop cfg st env).1 = Except.ok ()) :
    (ndStop cfg st env).2.1 =
      { st with webdavServer := none, rcloneProcess := none, active := false } := by
  rcases ndStop_cases cfg st env with ⟨ev, hEq⟩ | ⟨ev, hEq⟩
  · rw [hEq]
  · rw [hEq] at h
    simp at h

/-- An inactive state stays inactive through `ndStop`, whatever the
outcome. -/
theorem ndStop_active_false (cfg : NDConfig) (st : NDState) (env : StopEnv)
    (h : st.active = false) : (ndStop cfg st env).2.1.active = false := by
  rcases ndStop_cases cfg st env with ⟨ev, hEq⟩ | ⟨ev, hEq⟩ <;> rw [hEq] <;> simpa

/-- The trace of `ndStop` always begins with the `stop()` entry event. -/
theorem ndStop_trace_head (cfg : NDConfig) (st : NDState) (env : StopEnv) :
    ((ndStop cfg st env).2.2).head? = some NDEvent.stopCall := by
  simp only [ndStop, cleanupRClone]
  split <;> split <;> simp

/-- Fields of the state `ndStop` does not touch. -/
theorem ndStop_preserves (cfg : NDConfig) (st : NDState) (env : StopEnv) :
    (ndStop cfg st env).2.1.webdavUsername = st.webdavUsername ∧
    (ndStop cfg st env).2.1.webdavPassword = st.webdavPassword ∧
    (ndStop cfg st env).2.1.monitorProcess = st.monitorProcess := by
  rcases ndStop_cases cfg st env with ⟨ev, hEq⟩ | ⟨ev, hEq⟩ <;> rw [hEq]
  · exact ⟨rfl, rfl, rfl⟩
  · exact ⟨rfl, rfl, rfl⟩

/-- Every event in a `ndStop` trace is a stop/cleanup event. -/
theorem ndStop_trace_events (cfg : NDConfig) (st : NDState) (env : StopEnv) :
    ∀ ev ∈ (ndStop cfg st env).2.2,
      ev = NDEvent.stopCall ∨ ev = NDEvent.killSigterm ∨
      (∃ pid, ev = NDEvent.killByPid pid) ∨ ev = NDEvent.killByName ∨
      ev = NDEvent.unmountCmd ∨ ev = NDEvent.webdavStopCall := by
  intro ev hEv
  simp only [ndStop, cleanupRClone] at hEv
  split at hEv <;> split at hEv <;>
    (try split at hEv) <;> (try split at hEv) <;> simp_all <;> tauto

/-- Fields of the state `spawnRCloneAfterMonitor` does not touch, and
preservation of inactivity. -/
theorem spawnRCloneAfterMonitor_preserves (cfg : NDConfig) (st : NDState)
    (env : SpawnEnv) (ev : List NDEvent) :
    (spawnRCloneAfterMonitor cfg st env ev).2.1.webdavUsername = st.webdavUsername ∧
    (spawnRCloneAfterMonitor cfg st env ev).2.1.webdavPassword = st.webdavPassword ∧
    (st.active = false → (spawnRCloneAfterMonitor cfg st env ev).2.1.active = false) := by
  simp only [spawnRCloneAfterMonitor]
  split
  · exact ⟨rfl, rfl, fun h => h⟩
  · split
    · exact ⟨rfl, rfl, fun h => h⟩
    · exact ⟨rfl, rfl, fun h => h⟩
    · exact ⟨rfl, rfl, fun h => h⟩
    · split
      · exact ⟨rfl, rfl, fun h => h⟩
      · refine ⟨?_, ?_, ?_⟩
        · simpa using (ndStop_preserves cfg _ _).1
        · simpa using (ndStop_preserves cfg _ _).2.1
        · intro h
          exact ndStop_active_false cfg _ _ (by simpa using h)

/-- Fields of the state `spawnRClone` does not touch, and preservation of
inactivity. -/
theorem spawnRClone_preserves (cfg : NDConfig) (st : NDState) (env : SpawnEnv) :
    (spawnRClone cfg st env).2.1.webdavUsername = st.webdavUsername ∧
    (spawnRClone cfg st env).2.1.webdavPassword = st.webdavPassword ∧
    (st.active = false → (spawnRClone cfg st env).2.1.active = false) := by
  simp only [spawnRClone]
  split
  · exact ⟨rfl, rfl, fun h => h⟩
  · split
    · exact ⟨rfl, rfl, fun h => h⟩
    · split
      · exact ⟨rfl, rfl, fun h => h⟩
      · split
        · exact ⟨rfl, rfl, fun h => h⟩
        · split
          · exact ⟨rfl, rfl, fun h => h⟩
          · split
            · exact ⟨rfl, rfl, fun h => h⟩
            · split
              · exact spawnRCloneAfterMonitor_preserves cfg st env _
              · split
                · exact ⟨rfl, rfl, fun h => h⟩
                · exact ⟨rfl, rfl, fun h => h⟩
                · exact spawnRCloneAfterMonitor_preserves cfg _ env _

/-- The trace of every `ndStart` execution begins with the `stop()` entry
event. -/
theorem ndStart_trace_head (cfg : NDConfig) (st : NDState) (env : StartEnv) :
    ((ndStart cfg st env).2.2).head? = some NDEvent.stopCall := by
  have hHead := ndStop_trace_head cfg st env.initStop
  have hne : (ndStop cfg st env.initStop).2.2 ≠ [] := by
    intro hNil
    rw [hNil] at hHead
    simp at hHead
  simp only [ndStart]
  split
  · exact hHead
  · split
    · exact hHead
    · split
      · exact hHead
      · split
        · rw [List.head?_append_of_ne_nil _ hne]
          exact hHead
        · split
          · simp only [List.append_assoc]
            rw [List.head?_append_of_ne_nil _ hne]
            exact hHead
          · split
            · simp only [List.append_assoc]
              rw [List.head?_append_of_ne_nil _ hne]
              exact hHead
            · split
              · simp only [List.append_assoc]
                rw [List.head?_append_of_ne_nil _ hne]
                exact hHead
              · split
                · simp only [List.append_assoc]
                  rw [List.head?_append_of_ne_nil _ hne]
                  exact hHead
                · simp only [List.append_assoc]
                  rw [List.head?_append_of_ne_nil _ hne]
                  exact hHead

/-- When the unconditional initial `ndStop` succeeds, `ndStart` either
succeeds or leaves the session inactive. -/
theorem ndStart_ok_or_inactive (cfg : NDConfig) (st : NDState) (env : StartEnv)
    (hInit : (ndStop cfg st env.initStop).1 = Except.ok ()) :
    (ndStart cfg st env).1 = Except.ok () ∨ (ndStart cfg st env).2.1.active = false := by
  have hact0 : (ndStop cfg st env.initStop).2.1.active = false := by
    rw [ndStop_ok_state cfg st env.initStop hInit]
  simp only [ndStart]
  split
  · next e heq =>
    rw [hInit] at heq
    simp at heq
  · split
    · exact Or.inr hact0
    · split
      · exact Or.inr hact0
      · split
        · exact Or.inr hact0
        · split
          · exact Or.inr hact0
          · split
            · exact Or.inr hact0
            · split
              · exact Or.inr ((spawnRClone_preserves cfg _ env.spawn).2.2 hact0)
              · split
                · exact Or.inr ((spawnRClone_preserves cfg _ env.spawn).2.2 hact0)
                · exact Or.inl rfl

/-- C1: for every execution of `start()` that fails at any step past the
unconditional initial `stop()` (dependency check, mount-point validation,
port allocation, endpoint start, config write, engine spawn or readiness
probing — these are exactly the executions in which that initial `stop()`
returned without error), `stop()` has been invoked before the error is
surfaced — it is the very first event of the execution trace — and the
session state is left with `active = false`, never active. -/
theorem claim_c1_start_failure_keeps_stopped (cfg : NDConfig) (st : NDState)
    (env : StartEnv) (e : NDError)
    (hInit : (ndStop cfg st env.initStop).1 = Except.ok ())
    (hErr : (ndStart cfg st env).1 = Except.error e) :
    (ndStart cfg st env).2.1.active = false ∧
    ((ndStart cfg st env).2.2).head? = some NDEvent.stopCall := by
  rcases ndStart_ok_or_inactive cfg st env hInit with hOk | hAct
  · rw [hOk] at hErr
    simp at hErr
  · exact ⟨hAct, ndStart_trace_head cfg st env⟩

/-- Witness for C1: a concrete failing `start()` (non-existent mount
point) on a fresh linux instance ends inactive with `stop()` first in the
trace. -/
theorem claim_c1_witness :
    (ndStart fixtureCfg initialNDState fixtureStartEnvNoMount).2.1.active = false ∧
    ((ndStart fixtureCfg initialNDState fixtureStartEnvNoMount).2.2).head? =
      some NDEvent.stopCall :=
  claim_c1_start_failure_keeps_stopped fixtureCfg initialNDState fixtureStartEnvNoMount
    NDError.mountPointDoesNotExist (by decide) (by decide)

/-- C2: `stop()` on a never-started or already-stopped instance (no WebDAV
server, no tracked engine process, inactive) completes without throwing —
every teardown step it runs swallows its own failure, which is why
`cleanupRClone` is modelled as total — and leaves the state stopped:
`active = false`, `webdavServer = null`, `rcloneProcess = null`. -/
theorem claim_c2_stop_idempotent (cfg : NDConfig) (env : StopEnv) (st : NDState)
    (hW : st.webdavServer = none) (hR : st.rcloneProcess = none)
    (hA : st.active = false) :
    (ndStop cfg st env).1 = Except.ok () ∧
    (ndStop cfg st env).2.1.webdavServer = none ∧
    (ndStop cfg st env).2.1.rcloneProcess = none ∧
    (ndStop cfg st env).2.1.active = false := by
  simp [ndStop, hW]

/-- Witness for C2: a concrete `stop()` on the freshly constructed state
returns without error and leaves the stopped state, for an environment in
which the WebDAV health check reports online (so the external stop branch
is genuinely guarded by the null `serverInstance`). -/
theorem claim_c2_witness :
    (ndStop fixtureCfg initialNDState { webdavOnline := true, webdavStopOk := false }).1 =
      Except.ok () ∧
    (ndStop fixtureCfg initialNDState
      { webdavOnline := true, webdavStopOk := false }).2.1.webdavServer = none ∧
    (ndStop fixtureCfg initialNDState
      { webdavOnline := true, webdavStopOk := false }).2.1.rcloneProcess = none ∧
    (ndStop fixtureCfg initialNDState
      { webdavOnline := true, webdavStopOk := false }).2.1.active = false :=
  claim_c2_stop_idempotent fixtureCfg { webdavOnline := true, webdavStopOk := false }
    initialNDState rfl rfl rfl

/-- Removing one path leaves lookups of any other path unchanged. -/
theorem dlfsGet_remove_ne (fs : DLFS) (p q : String) (h : q ≠ p) :
    dlfsGet (dlfsRemove fs p) q = dlfsGet fs q := by
  induction fs with
  | nil => rfl
  | cons hd tl ih =>
    obtain ⟨hp, hc⟩ := hd
    by_cases hpp : hp = p
    · subst hpp
      have hq : ¬hp = q := fun hqe => h hqe.symm
      simp [dlfsRemove, dlfsGet, hq, ih]
    · simp only [dlfsRemove, hpp, if_false, dlfsGet, ih]

/-- Lookup of the path just written. -/
theorem dlfsGet_set_self (fs : DLFS) (p c : String) :
    dlfsGet (dlfsSet fs p c) p = some c := by
  simp [dlfsSet, dlfsGet]

/-- Lookup of a different path than the one just written. -/
theorem dlfsGet_set_ne (fs : DLFS) (p c : String) (q : String) (h : q ≠ p) :
    dlfsGet (dlfsSet fs p c) q = dlfsGet fs q := by
  have hpq : ¬p = q := fun he => h he.symm
  simp only [dlfsSet, dlfsGet, hpq, if_false]
  exact dlfsGet_remove_ne fs p q h

/-- C3: for every binary download whose computed SHA-512 digest differs
from the expected hash, `downloadBinaryAndVerifySHA512` throws the
distinct hash-verification error and, provided no file pre-existed at the
final install path (the callers only invoke it in that situation) and the
uniquely named temporary file is distinct from it, no file exists at the
final install path afterwards; conversely the verified content is moved
into place at the final path only when the computed digest equals the
expected hash. -/
theorem claim_c3_hash_mismatch_leaves_no_file (sha512hex : String → String)
    (destination neededHash tmpPath : String) (downloadResult : Option String)
    (partial_ : String) (fs : DLFS)
    (hAbsent : dlfsGet fs destination = none)
    (hTmpNe : tmpPath ≠ destination) :
    (∀ content, downloadResult = some content → sha512hex content ≠ neededHash →
      (downloadBinaryAndVerifySHA512 sha512hex destination neededHash tmpPath
          downloadResult partial_ fs).1 =
        Except.error (DLError.hashMismatch neededHash (sha512hex content)) ∧
      dlfsGet (downloadBinaryAndVerifySHA512 sha512hex destination neededHash tmpPath
          downloadResult partial_ fs).2 destination = none) ∧
    (∀ r, (downloadBinaryAndVerifySHA512 sha512hex destination neededHash tmpPath
          downloadResult partial_ fs).1 = Except.ok r →
      ∃ content, downloadResult = some content ∧ sha512hex content = neededHash ∧
        dlfsGet (downloadBinaryAndVerifySHA512 sha512hex destination neededHash tmpPath
          downloadResult partial_ fs).2 destination = some content) := by
  have hDest : ∀ c, dlfsGet (dlfsSet fs tmpPath c) destination = none := fun c => by
    rw [dlfsGet_set_ne fs tmpPath c destination (fun he => hTmpNe he.symm)]
    exact hAbsent
  constructor
  · intro content hDl hMismatch
    subst hDl
    simp only [downloadBinaryAndVerifySHA512]
    rw [if_pos hMismatch]
    exact ⟨rfl, hDest content⟩
  · intro r hOk
    rcases hDlEq : downloadResult with _ | content
    · rw [hDlEq] at hOk
      simp [downloadBinaryAndVerifySHA512] at hOk
    · rw [hDlEq] at hOk
      by_cases hMatch : sha512hex content = neededHash
      · refine ⟨content, rfl, hMatch, ?_⟩
        unfold downloadBinaryAndVerifySHA512
        simp [hMatch, dlfsGet_set_self]
      · exfalso
        simp only [downloadBinaryAndVerifySHA512] at hOk
        rw [if_pos hMatch] at hOk
        simp at hOk

/-- Witness for C3: a concrete mismatching download (expected hash `h1`,
computed hash `h0`) errors out and leaves the destination path absent. -/
theorem claim_c3_witness :
    (∀ content, some ("bits") = some content →
      (fun _ => ("h0")) content ≠ ("h1") →
      (downloadBinaryAndVerifySHA512 (fun _ => ("h0")) ("/cfg/bin") ("h1") ("/cfg/tmp.tmp")
          (some ("bits")) ("") []).1 =
        Except.error (DLError.hashMismatch ("h1") ((fun _ => ("h0")) content)) ∧
      dlfsGet (downloadBinaryAndVerifySHA512 (fun _ => ("h0")) ("/cfg/bin") ("h1")
          ("/cfg/tmp.tmp") (some ("bits")) ("") []).2 ("/cfg/bin") = none) ∧
    (∀ r, (downloadBinaryAndVerifySHA512 (fun _ => ("h0")) ("/cfg/bin") ("h1")
          ("/cfg/tmp.tmp") (some ("bits")) ("") []).1 = Except.ok r →
      ∃ content, some ("bits") = some content ∧ (fun _ => ("h0")) content = ("h1") ∧
        dlfsGet (downloadBinaryAndVerifySHA512 (fun _ => ("h0")) ("/cfg/bin") ("h1")
          ("/cfg/tmp.tmp") (some ("bits")) ("") []).2 ("/cfg/bin") = some content) :=
  claim_c3_hash_mismatch_leaves_no_file (fun _ => ("h0")) ("/cfg/bin") ("h1")
    ("/cfg/tmp.tmp") (some ("bits")) ("") [] (by decide) (by decide)

/-- C8: the cache size bound handed to the engine through
`--vfs-cache-max-size` is derived from the free space `f` reported for
the cache volume: whenever `floor(f / 2^30)` minus the 5 GiB reserved OS
disk buffer is positive, the bound in GiB equals exactly that difference;
and the flag carrying this bound is always part of the engine argument
list built by `rcloneArgs`. -/
theorem claim_c8_cache_size_bound :
    (∀ f : Nat, 5 < f / (1024 * 1024 * 1024) →
      rcloneCacheSizeGib f = ((f / (1024 * 1024 * 1024) : Nat) : Int) - 5) ∧
    (∀ (cfg : NDConfig) (cachePath configPath : String) (rclonePort : Nat)
        (statfsResult : Option (Nat × Nat)) (macFUSEInstalled : Bool),
      (("--vfs-cache-max-size \"") ++
          toString (rcloneCacheSizeGib (getAvailableCacheSize statfsResult)) ++ ("Gi\"")) ∈
        rcloneArgs cfg cachePath configPath rclonePort
          (getAvailableCacheSize statfsResult) macFUSEInstalled) := by
  constructor
  · intro f h
    unfold rcloneCacheSizeGib
    have hpos : ((f / (1024 * 1024 * 1024) : Nat) : Int) - 5 > 0 := by omega
    rw [if_pos hpos]
  · intro cfg cachePath configPath rclonePort statfsResult macFUSEInstalled
    simp [rcloneArgs]

/-- Witness for C8: with 7 GiB of free space the bound is 2 GiB and the
flag is in the concrete argument list. -/
theorem claim_c8_witness :
    rcloneCacheSizeGib (7 * 1073741824) = 2 ∧
    (("--vfs-cache-max-size \"2Gi\"")) ∈
      rcloneArgs fixtureCfg ("/cfg/cache") ("/cfg/rclone.conf") 1906
        (getAvailableCacheSize (some (1073741824, 7))) false :=
  ⟨(claim_c8_cache_size_bound.1 (7 * 1073741824) (by decide)).trans (by decide),
    by
      have := claim_c8_cache_size_bound.2 fixtureCfg ("/cfg/cache") ("/cfg/rclone.conf")
        1906 (some (1073741824, 7)) false
      simpa using this⟩

/-- Concrete active state used by the probe and monitor witnesses. -/
def fixtureActiveState : NDState :=
  { initialNDState with
    active := true,
    rcloneProcess := some { pid := some 42 },
    webdavServer := some { serverInstance := true } }

/-- C4: the readiness probe `isMountActuallyActive` — a total function,
mirroring that every failure inside it is caught — returns true only when
the mount path is accessible, the WebDAV endpoint answers the 401 health
check and the engine vfs list contains the mount name `Filen:`
simultaneously; when any single one of these checks fails, it returns
false. -/
theorem claim_c4_probe_requires_all_checks (st : NDState) (p : ProbeEnv) :
    (isMountActuallyActive st p = true →
      p.mountExists = true ∧ p.webdavOnline = true ∧
      ∃ l, vfsList p.vfsHttp = some l ∧ ("Filen:") ∈ l) ∧
    ((p.mountExists = false ∨ p.webdavOnline = false ∨
        (∀ l, vfsList p.vfsHttp = some l → ("Filen:") ∉ l)) →
      isMountActuallyActive st p = false) := by
  constructor
  · intro h
    unfold isMountActuallyActive at h
    rcases hrp : st.rcloneProcess with _ | proc
    · rw [hrp] at h
      simp at h
    · rw [hrp] at h
      by_cases hm : p.mountExists
      · by_cases hw : p.webdavOnline
        · simp only [hm, hw, Bool.not_true, Bool.or_self, Bool.false_or, if_false] at h
          rcases hv : vfsList p.vfsHttp with _ | l
          · rw [hv] at h
            simp at h
          · rw [hv] at h
            exact ⟨hm, hw, l, rfl, by simpa using h⟩
        · simp [hw] at h
      · simp [hm] at h
  · intro hFail
    unfold isMountActuallyActive
    rcases hrp : st.rcloneProcess with _ | proc
    · rfl
    · rcases hFail with hm | hw | hv
      · simp [hm]
      · simp [hw]
      · by_cases hm : p.mountExists
        · by_cases hw : p.webdavOnline
          · simp only [hm, hw, Bool.not_true, Bool.or_self, Bool.false_or, if_false]
            rcases hvl : vfsList p.vfsHttp with _ | l
            · rfl
            · simpa using hv l hvl
          · simp [hw]
        · simp [hm]

/-- Witness for C4: on a concrete active state the probe returning true
yields all three checks, and a concrete failed mount-path check forces the
probe to false. -/
theorem claim_c4_witness :
    (fixtureProbeOk.mountExists = true ∧ fixtureProbeOk.webdavOnline = true ∧
      ∃ l, vfsList fixtureProbeOk.vfsHttp = some l ∧ ("Filen:") ∈ l) ∧
    isMountActuallyActive fixtureActiveState
      { fixtureProbeOk with mountExists := false } = false :=
  ⟨(claim_c4_probe_requires_all_checks fixtureActiveState fixtureProbeOk).1 (by decide),
    (claim_c4_probe_requires_all_checks fixtureActiveState
      { fixtureProbeOk with mountExists := false }).2 (Or.inl rfl)⟩

/-- C5: `getStats()` — total, mirroring that the source catches every
query failure — returns the all-zero result with an empty transfer list
whenever the session is inactive or either remote-control query fails
(`Promise.all` rejects, so this covers the case in which all queries
fail); and when both queries succeed but the response lacks
correctly-typed `diskCache` counter fields, all three counters fall back
to zero. -/
theorem claim_c5_getStats_zero_defaults (st : NDState)
    (core : Option RCCoreStatsE) (vfs : Option RCVFSStatsE) :
    (st.active = false → getStats st core vfs = zeroGetStats) ∧
    ((core = none ∨ vfs = none) → getStats st core vfs = zeroGetStats) ∧
    (∀ c v, core = some c → vfs = some v →
      (v.diskCache = none ∨ ∃ dc, v.diskCache = some dc ∧
        (dc.erroredFiles = none ∨ dc.uploadsInProgress = none ∨
          dc.uploadsQueued = none)) →
      (getStats st core vfs).uploadsInProgress = 0 ∧
      (getStats st core vfs).uploadsQueued = 0 ∧
      (getStats st core vfs).erroredFiles = 0) := by
  refine ⟨?_, ?_, ?_⟩
  · intro h
    simp [getStats, h]
  · intro h
    by_cases ha : st.active
    · rcases h with h | h
      · subst h
        cases vfs <;> simp [getStats, ha]
      · subst h
        cases core <;> simp [getStats, ha]
    · simp [getStats, ha]
  · intro c v hc hv hinvalid
    subst hc
    subst hv
    by_cases ha : st.active
    · rcases hinvalid with hdc | ⟨dc, hdc, hfield⟩
      · simp [getStats, ha, hdc]
      · rcases he : dc.erroredFiles with _ | ef
        · simp [getStats, ha, hdc, he]
        · rcases hu : dc.uploadsInProgress with _ | up
          · simp [getStats, ha, hdc, he, hu]
          · rcases hq : dc.uploadsQueued with _ | uq
            · simp [getStats, ha, hdc, he, hu, hq]
            · rcases hfield with h1 | h1 | h1 <;> simp_all
    · simp [getStats, ha, zeroGetStats]

/-- Concrete raw transfer entry used by the C5 witness. -/
def fixtureTransfer : RCTransferRaw where
  name := some ("a")
  size := some 1
  speed := some 2

/-- Concrete `core/stats` response used by the C5 witness. -/
def fixtureCoreResp : RCCoreStatsE where
  transferring := some [fixtureTransfer]

/-- Concrete `vfs/stats` response with a malformed `diskCache` (the
`uploadsInProgress` field is not a number). -/
def fixtureVfsBad : RCVFSStatsE where
  diskCache := some
    { uploadsInProgress := none, uploadsQueued := some 3, erroredFiles := some 4 }

/-- Witness for C5: concrete zero results on an inactive session, on an
active session with both queries failed, and zero counters on an active
session with a malformed `diskCache`. -/
theorem claim_c5_witness :
    getStats initialNDState (some fixtureCoreResp) (some { diskCache := none }) =
      zeroGetStats ∧
    getStats fixtureActiveState none none = zeroGetStats ∧
    ((getStats fixtureActiveState (some fixtureCoreResp)
        (some fixtureVfsBad)).uploadsInProgress = 0 ∧
      (getStats fixtureActiveState (some fixtureCoreResp)
        (some fixtureVfsBad)).uploadsQueued = 0 ∧
      (getStats fixtureActiveState (some fixtureCoreResp)
        (some fixtureVfsBad)).erroredFiles = 0) :=
  ⟨(claim_c5_getStats_zero_defaults initialNDState (some fixtureCoreResp)
      (some { diskCache := none })).1 rfl,
    (claim_c5_getStats_zero_defaults fixtureActiveState none none).2.1 (Or.inl rfl),
    (claim_c5_getStats_zero_defaults fixtureActiveState (some fixtureCoreResp)
      (some fixtureVfsBad)).2.2 _ _ rfl rfl (Or.inr ⟨_, rfl, Or.inr (Or.inl rfl)⟩)⟩

/-- A `startChecks` failure aborts `ndStart` with that error, right after
the initial `ndStop`: its state and its trace are exactly those the
initial stop produced. -/
theorem ndStart_checks_error (cfg : NDConfig) (st : NDState) (env : StartEnv)
    (e : NDError) (hInit : (ndStop cfg st env.initStop).1 = Except.ok ())
    (hChecks : startChecks cfg env = Except.error e) :
    (ndStart cfg st env).1 = Except.error e ∧
    (ndStart cfg st env).2.1.active = false ∧
    (ndStart cfg st env).2.2 = (ndStop cfg st env.initStop).2.2 := by
  have hact0 : (ndStop cfg st env.initStop).2.1.active = false := by
    rw [ndStop_ok_state cfg st env.initStop hInit]
  simp only [ndStart]
  split
  · next e' heq =>
    rw [hInit] at heq
    simp at heq
  · split
    · next e' heq =>
      rw [hChecks] at heq
      obtain rfl : e = e' := by injection heq
      exact ⟨rfl, hact0, rfl⟩
    · next heq =>
      rw [hChecks] at heq
      simp at heq

/-- The trace of a `ndStop` call contains no port allocation and no
process spawn events. -/
theorem ndStop_trace_no_alloc_spawn (cfg : NDConfig) (st : NDState) (env : StopEnv) :
    (∀ p, NDEvent.portAlloc p ∉ (ndStop cfg st env).2.2) ∧
    NDEvent.spawnMonitorProc ∉ (ndStop cfg st env).2.2 ∧
    (∀ cd args, NDEvent.spawnRCloneProc cd args ∉ (ndStop cfg st env).2.2) := by
  refine ⟨fun p hp => ?_, fun hm => ?_, fun cd args hs => ?_⟩
  · rcases ndStop_trace_events cfg st env _ hp with h | h | ⟨pid, h⟩ | h | h | h <;>
      simp at h
  · rcases ndStop_trace_events cfg st env _ hm with h | h | ⟨pid, h⟩ | h | h | h <;>
      simp at h
  · rcases ndStop_trace_events cfg st env _ hs with h | h | ⟨pid, h⟩ | h | h | h <;>
      simp at h

/-- C6: on the POSIX platform families (linux and darwin), `start()`
with a mount point that does not exist fails with the `Mount point does
not exist` error while the session stays inactive, no port is allocated
and no child process (engine or watchdog) is spawned; the same
validation block likewise rejects, before any resource allocation or
spawn, mount points outside the user's home hierarchy (with the
per-platform error message) and non-empty mount directories. -/
theorem claim_c6_mount_validation :
    (∀ (cfg : NDConfig) (st : NDState) (env : StartEnv),
      (cfg.platform = Platform.linux ∧ env.fuse3Installed = true) ∨
        (cfg.platform = Platform.darwin ∧ env.fuseTInstalled = true) →
      cfg.tryToInstallDependenciesOnStart = false →
      jsIncludesChar cfg.mountPoint '$' = false →
      jsStartsWith cfg.mountPoint (cfg.homedir ++ ("/")) = true →
      env.mountProbe.exists_ = false →
      (ndStop cfg st env.initStop).1 = Except.ok () →
      (ndStart cfg st env).1 = Except.error NDError.mountPointDoesNotExist ∧
      (ndStart cfg st env).2.1.active = false ∧
      (∀ p, NDEvent.portAlloc p ∉ (ndStart cfg st env).2.2) ∧
      NDEvent.spawnMonitorProc ∉ (ndStart cfg st env).2.2 ∧
      (∀ cd args, NDEvent.spawnRCloneProc cd args ∉ (ndStart cfg st env).2.2) ∧
      ndErrorMessage cfg.mountPoint NDError.mountPointDoesNotExist =
        ("Cannot mount network drive at ") ++ cfg.mountPoint ++
          (": Mount point does not exist.")) ∧
    (∀ (cfg : NDConfig) (st : NDState) (env : StartEnv),
      (cfg.platform = Platform.linux ∧ env.fuse3Installed = true) ∨
        (cfg.platform = Platform.darwin ∧ env.fuseTInstalled = true) →
      cfg.tryToInstallDependenciesOnStart = false →
      jsIncludesChar cfg.mountPoint '$' = false →
      jsStartsWith cfg.mountPoint (cfg.homedir ++ ("/")) = false →
      (ndStop cfg st env.initStop).1 = Except.ok () →
      (ndStart cfg st env).1 = Except.error
        (if cfg.platform = Platform.linux then NDError.outsideHomeDirectory
          else NDError.outsideUserDirectory) ∧
      (∀ p, NDEvent.portAlloc p ∉ (ndStart cfg st env).2.2) ∧
      NDEvent.spawnMonitorProc ∉ (ndStart cfg st env).2.2 ∧
      (∀ cd args, NDEvent.spawnRCloneProc cd args ∉ (ndStart cfg st env).2.2)) ∧
    (∀ (cfg : NDConfig) (st : NDState) (env : StartEnv),
      (cfg.platform = Platform.linux ∧ env.fuse3Installed = true) ∨
        (cfg.platform = Platform.darwin ∧ env.fuseTInstalled = true) →
      cfg.tryToInstallDependenciesOnStart = false →
      jsIncludesChar cfg.mountPoint '$' = false →
      jsStartsWith cfg.mountPoint (cfg.homedir ++ ("/")) = true →
      isUnixMountPointValid env.mountProbe = true →
      isUnixMountPointEmpty env.mountProbe = false →
      (ndStop cfg st env.initStop).1 = Except.ok () →
      (ndStart cfg st env).1 = Except.error NDError.mountPointNotEmpty ∧
      (∀ p, NDEvent.portAlloc p ∉ (ndStart cfg st env).2.2) ∧
      NDEvent.spawnMonitorProc ∉ (ndStart cfg st env).2.2 ∧
      (∀ cd args, NDEvent.spawnRCloneProc cd args ∉ (ndStart cfg st env).2.2)) := by
  refine ⟨?_, ?_, ?_⟩
  · intro cfg st env hdeps hinstall hdollar hhome hexists hInit
    have hChecks : startChecks cfg env = Except.error NDError.mountPointDoesNotExist := by
      rcases hdeps with ⟨hplat, hdep⟩ | ⟨hplat, hdep⟩ <;>
        simp [startChecks, startDepMountChecks, hplat, hinstall, hdep, hdollar, hhome,
          isUnixMountPointValid, hexists]
    obtain ⟨h1, h2, h3⟩ := ndStart_checks_error cfg st env _ hInit hChecks
    obtain ⟨hp, hm, hs⟩ := ndStop_trace_no_alloc_spawn cfg st env.initStop
    refine ⟨h1, h2, fun p => ?_, ?_, fun cd args => ?_, rfl⟩
    · rw [h3]
      exact hp p
    · rw [h3]
      exact hm
    · rw [h3]
      exact hs cd args
  · intro cfg st env hdeps hinstall hdollar hhome hInit
    rcases hdeps with ⟨hplat, hdep⟩ | ⟨hplat, hdep⟩
    · have hChecks : startChecks cfg env = Except.error NDError.outsideHomeDirectory := by
        simp [startChecks, startDepMountChecks, hplat, hinstall, hdep, hdollar, hhome]
      obtain ⟨h1, h2, h3⟩ := ndStart_checks_error cfg st env _ hInit hChecks
      obtain ⟨hp, hm, hs⟩ := ndStop_trace_no_alloc_spawn cfg st env.initStop
      refine ⟨?_, fun p => ?_, ?_, fun cd args => ?_⟩
      · rw [h1]
        simp [hplat]
      · rw [h3]
        exact hp p
      · rw [h3]
        exact hm
      · rw [h3]
        exact hs cd args
    · have hChecks : startChecks cfg env = Except.error NDError.outsideUserDirectory := by
        simp [startChecks, startDepMountChecks, hplat, hinstall, hdep, hdollar, hhome]
      obtain ⟨h1, h2, h3⟩ := ndStart_checks_error cfg st env _ hInit hChecks
      obtain ⟨hp, hm, hs⟩ := ndStop_trace_no_alloc_spawn cfg st env.initStop
      refine ⟨?_, fun p => ?_, ?_, fun cd args => ?_⟩
      · rw [h1]
        simp [hplat]
      · rw [h3]
        exact hp p
      · rw [h3]
        exact hm
      · rw [h3]
        exact hs cd args
  · intro cfg st env hdeps hinstall hdollar hhome hvalid hempty hInit
    have hChecks : startChecks cfg env = Except.error NDError.mountPointNotEmpty := by
      rcases hdeps with ⟨hplat, hdep⟩ | ⟨hplat, hdep⟩ <;>
        simp [startChecks, startDepMountChecks, hplat, hinstall, hdep, hdollar, hhome,
          hvalid, hempty]
    obtain ⟨h1, h2, h3⟩ := ndStart_checks_error cfg st env _ hInit hChecks
    obtain ⟨hp, hm, hs⟩ := ndStop_trace_no_alloc_spawn cfg st env.initStop
    refine ⟨h1, fun p => ?_, ?_, fun cd args => ?_⟩
    · rw [h3]
      exact hp p
    · rw [h3]
      exact hm
    · rw [h3]
      exact hs cd args

/-- Configuration mounting outside the home directory, for the C6
witness. -/
def fixtureCfgOutsideHome : NDConfig :=
  { fixtureCfg with mountPoint := "/tmp/drive" }

/-- Darwin variant of the witness configuration. -/
def fixtureCfgDarwin : NDConfig :=
  { fixtureCfg with platform := Platform.darwin }

/-- Darwin configuration mounting outside the user directory. -/
def fixtureCfgDarwinOutside : NDConfig :=
  { fixtureCfgDarwin with mountPoint := "/tmp/drive" }

/-- Start environment with FUSE-T present, for the darwin witness runs. -/
def fixtureStartEnvOkDarwin : StartEnv :=
  { fixtureStartEnvOk with fuseTInstalled := true }

/-- Darwin start environment whose mount point does not exist. -/
def fixtureStartEnvNoMountDarwin : StartEnv :=
  { fixtureStartEnvNoMount with fuseTInstalled := true }

/-- Start environment whose mount point directory is valid but not
empty, for the C6 witness. -/
def fixtureStartEnvNotEmpty : StartEnv :=
  { fixtureStartEnvOk with
    mountProbe := { fixtureMountProbe with readdir := some [("x")] } }

/-- Witness for C6: the concrete rejections on both POSIX platform
families. -/
theorem claim_c6_witness :
    (ndStart fixtureCfg initialNDState fixtureStartEnvNoMount).1 =
      Except.error NDError.mountPointDoesNotExist ∧
    (ndStart fixtureCfgDarwin initialNDState fixtureStartEnvNoMountDarwin).1 =
      Except.error NDError.mountPointDoesNotExist ∧
    (ndStart fixtureCfgOutsideHome initialNDState fixtureStartEnvOk).1 =
      Except.error NDError.outsideHomeDirectory ∧
    (ndStart fixtureCfgDarwinOutside initialNDState fixtureStartEnvOkDarwin).1 =
      Except.error NDError.outsideUserDirectory ∧
    (ndStart fixtureCfg initialNDState fixtureStartEnvNotEmpty).1 =
      Except.error NDError.mountPointNotEmpty :=
  ⟨(claim_c6_mount_validation.1 fixtureCfg initialNDState fixtureStartEnvNoMount
      (Or.inl ⟨rfl, rfl⟩) rfl (by decide) (by decide) rfl (by decide)).1,
    (claim_c6_mount_validation.1 fixtureCfgDarwin initialNDState fixtureStartEnvNoMountDarwin
      (Or.inr ⟨rfl, rfl⟩) rfl (by decide) (by decide) rfl (by decide)).1,
    ((claim_c6_mount_validation.2.1 fixtureCfgOutsideHome initialNDState fixtureStartEnvOk
      (Or.inl ⟨rfl, rfl⟩) rfl (by decide) (by decide) (by decide)).1).trans (by decide),
    ((claim_c6_mount_validation.2.1 fixtureCfgDarwinOutside initialNDState fixtureStartEnvOkDarwin
      (Or.inr ⟨rfl, rfl⟩) rfl (by decide) (by decide) (by decide)).1).trans (by decide),
    (claim_c6_mount_validation.2.2 fixtureCfg initialNDState fixtureStartEnvNotEmpty
      (Or.inl ⟨rfl, rfl⟩) rfl (by decide) (by decide) (by decide) (by decide) (by decide)).1⟩

/-- When the external WebDAV stop succeeds, `ndStop` returns without
error and deactivates the session. -/
theorem ndStop_stopOk (cfg : NDConfig) (st : NDState) (env : StopEnv)
    (h : env.webdavStopOk = true) :
    (ndStop cfg st env).1 = Except.ok () ∧ (ndStop cfg st env).2.1.active = false := by
  simp only [ndStop]
  split
  · simp [h]
  · simp

/-- The `stop()` entry event belongs to every `ndStop` trace. -/
theorem ndStop_stopCall_mem (cfg : NDConfig) (st : NDState) (env : StopEnv) :
    NDEvent.stopCall ∈ (ndStop cfg st env).2.2 := by
  have hHead := ndStop_trace_head cfg st env
  rcases hl : (ndStop cfg st env).2.2 with _ | ⟨hd, tl⟩
  · rw [hl] at hHead
    simp at hHead
  · rw [hl] at hHead
    simp only [List.head?_cons, Option.some_inj] at hHead
    rw [hHead]
    exact List.mem_cons_self _ _

/-- C7: one wake-up of the background monitor loop never propagates an
exception (its result is always `Except.ok`, the catch block swallowing
even a failing `stop()`); the wake-up interval constant is 15000 ms; and
on an active session whose readiness probe fails — e.g. the engine
process was killed out-of-band — the very same wake-up invokes `stop()`
and leaves the session inactive, i.e. the transition happens within one
monitor cycle, provided the external WebDAV stop succeeds. -/
theorem claim_c7_monitor_self_heal (cfg : NDConfig) (st : NDState)
    (probe : ProbeEnv) (stopEnv : StopEnv) :
    (∃ out, monitorStep cfg st probe stopEnv = Except.ok out) ∧
    monitorIntervalMs = 15000 ∧
    (st.active = true → isMountActuallyActive st probe = false →
      stopEnv.webdavStopOk = true →
      ∃ st' ev, monitorStep cfg st probe stopEnv = Except.ok (st', ev) ∧
        st'.active = false ∧ NDEvent.stopCall ∈ ev) := by
  refine ⟨?_, rfl, ?_⟩
  · simp only [monitorStep]
    split
    · exact ⟨_, rfl⟩
    · split
      · exact ⟨_, rfl⟩
      · split
        · exact ⟨_, rfl⟩
        · exact ⟨_, rfl⟩
  · intro ha hprobe hstopok
    refine ⟨(ndStop cfg st stopEnv).2.1, (ndStop cfg st stopEnv).2.2, ?_, ?_, ?_⟩
    · unfold monitorStep
      rw [if_neg (by simp [ha]), if_neg (by simp [hprobe])]
      dsimp only
      split
      · rfl
      · rfl
    · exact (ndStop_stopOk cfg st stopEnv hstopok).2
    · exact ndStop_stopCall_mem cfg st stopEnv

/-- Witness for C7: a concrete active session with a dead engine process
(probe fails) transitions to inactive in a single monitor step. -/
theorem claim_c7_witness :
    ∃ st' ev,
      monitorStep fixtureCfg fixtureActiveState
        { mountExists := false, webdavOnline := true, vfsHttp := none }
        { webdavOnline := true, webdavStopOk := true } = Except.ok (st', ev) ∧
      st'.active = false ∧ NDEvent.stopCall ∈ ev :=
  (claim_c7_monitor_self_heal fixtureCfg fixtureActiveState
      { mountExists := false, webdavOnline := true, vfsHttp := none }
      { webdavOnline := true, webdavStopOk := true }).2.2 rfl (by decide) rfl

/-- The unconditional transition-to-stopped reading fails on the code: on
a concrete active session whose readiness probe fails, one monitor
wake-up leaves the session still active when the external
`webdavServer.stop(true)` call rejects — `stop()` logs and rethrows
before clearing the `active` flag, the monitor catch block swallows the
error, and no transition to stopped happens within that cycle. -/
theorem claim_c7_counterexample :
    fixtureActiveState.active = true ∧
    isMountActuallyActive fixtureActiveState
      { mountExists := false, webdavOnline := true, vfsHttp := none } = false ∧
    (monitorStep fixtureCfg fixtureActiveState
        { mountExists := false, webdavOnline := true, vfsHttp := none }
        { webdavOnline := true, webdavStopOk := false }).map
      (fun out => out.1.active) = Except.ok true := by
  refine ⟨rfl, by decide, ?_⟩
  decide

/-- The trace of `spawnRCloneAfterMonitor` either adds no event to `ev`
(no free RC port) or appends the engine spawn event followed only by
teardown events. -/
theorem spawnRCloneAfterMonitor_trace_cases (cfg : NDConfig) (st : NDState)
    (env : SpawnEnv) (ev : List NDEvent) :
    ((spawnRCloneAfterMonitor cfg st env ev).2.2 = ev) ∨
    (∃ args0 suf, (spawnRCloneAfterMonitor cfg st env ev).2.2 =
      ev ++ NDEvent.spawnRCloneProc (some []) args0 :: suf ∧
      (∀ cd args, NDEvent.spawnRCloneProc cd args ∈ suf → False)) := by
  simp only [spawnRCloneAfterMonitor]
  split
  · exact Or.inl rfl
  · split
    · exact Or.inr ⟨_, [], rfl, by simp⟩
    · exact Or.inr ⟨_, [], rfl, by simp⟩
    · exact Or.inr ⟨_, [], rfl, by simp⟩
    · split
      · exact Or.inr ⟨_, [], rfl, by simp⟩
      · rename_i x1 rcPort heqPort x2 probe stopEnv heqSpawn hprobe
        refine Or.inr ⟨rcloneArgs cfg env.cachePath env.configPath rcPort
            (getAvailableCacheSize env.statfsResult) env.macFUSEInstalled,
          (ndStop cfg { st with rcloneProcess := some (ProcHandle.mk env.spawnedPid), rclonePort := rcPort } stopEnv).2.2, ?_, ?_⟩
        · dsimp only
          rw [List.append_assoc, List.singleton_append]
        · exact fun cd args hmem =>
            (ndStop_trace_no_alloc_spawn cfg _ _).2.2 cd args hmem

/-- The trace of `spawnRClone` either contains no engine spawn event, or
starts with the cache removal and re-creation events, followed by at most
the watchdog spawn, then the engine spawn event recording the freshly
emptied cache directory, then only teardown events. -/
theorem spawnRClone_trace_cases (cfg : NDConfig) (st : NDState) (env : SpawnEnv) :
    (∀ cd args, NDEvent.spawnRCloneProc cd args ∉ (spawnRClone cfg st env).2.2) ∨
    (∃ mid args0 suf, (spawnRClone cfg st env).2.2 =
      NDEvent.cacheRm :: NDEvent.cacheEnsureDir ::
        (mid ++ NDEvent.spawnRCloneProc (some []) args0 :: suf) ∧
      (∀ ev ∈ mid, ev = NDEvent.spawnMonitorProc) ∧
      (∀ cd args, NDEvent.spawnRCloneProc cd args ∈ suf → False)) := by
  have hAfter : ∀ (st' : NDState) (pre : List NDEvent),
      ((spawnRCloneAfterMonitor cfg st' env (NDEvent.cacheRm :: NDEvent.cacheEnsureDir :: pre)).2.2 =
        NDEvent.cacheRm :: NDEvent.cacheEnsureDir :: pre) ∨
      (∃ args0 suf,
        (spawnRCloneAfterMonitor cfg st' env (NDEvent.cacheRm :: NDEvent.cacheEnsureDir :: pre)).2.2 =
          NDEvent.cacheRm :: NDEvent.cacheEnsureDir ::
            (pre ++ NDEvent.spawnRCloneProc (some []) args0 :: suf) ∧
        (∀ cd args, NDEvent.spawnRCloneProc cd args ∈ suf → False)) := by
    intro st' pre
    rcases spawnRCloneAfterMonitor_trace_cases cfg st' env
        (NDEvent.cacheRm :: NDEvent.cacheEnsureDir :: pre) with h | ⟨args0, suf, hEq, hsuf⟩
    · exact Or.inl h
    · refine Or.inr ⟨args0, suf, ?_, hsuf⟩
      rw [hEq]
      simp
  simp only [spawnRClone]
  split
  · exact Or.inl (by simp)
  · split
    · exact Or.inl (by simp)
    · split
      · exact Or.inl (by simp)
      · split
        · exact Or.inl (by simp)
        · split
          · exact Or.inl (by simp)
          · split
            · exact Or.inl (by simp)
            · split
              · rcases hAfter st [] with h | ⟨args0, suf, hEq, hsuf⟩
                · rw [h]
                  exact Or.inl (by simp)
                · rw [hEq]
                  exact Or.inr ⟨[], args0, suf, by simp, by simp, hsuf⟩
              · split
                · exact Or.inl (by simp)
                · exact Or.inl (by simp)
                · simp only [List.cons_append, List.nil_append]
                  rcases hAfter { st with monitorProcess := some () }
                      [NDEvent.spawnMonitorProc] with h | ⟨args0, suf, hEq, hsuf⟩
                  · rw [h]
                    exact Or.inl (by simp)
                  · rw [hEq]
                    refine Or.inr ⟨[NDEvent.spawnMonitorProc], args0, suf, by simp, ?_, hsuf⟩
                    intro ev hev
                    simpa using hev

/-- Appending two spawn-free traces yields a spawn-free trace. -/
theorem no_spawn_append (l1 l2 : List NDEvent)
    (h1 : ∀ cd args, NDEvent.spawnRCloneProc cd args ∉ l1)
    (h2 : ∀ cd args, NDEvent.spawnRCloneProc cd args ∉ l2) :
    ∀ cd args, NDEvent.spawnRCloneProc cd args ∉ l1 ++ l2 := by
  intro cd args hmem
  rcases List.mem_append.mp hmem with h | h
  · exact h1 cd args h
  · exact h2 cd args h

/-- A singleton trace holding a non-spawn event is spawn-free. -/
theorem no_spawn_singleton (ev : NDEvent)
    (h : ∀ cd args, ev ≠ NDEvent.spawnRCloneProc cd args) :
    ∀ cd args, NDEvent.spawnRCloneProc cd args ∉ [ev] := by
  intro cd args hmem
  simp only [List.mem_singleton] at hmem
  exact h cd args hmem.symm

/-- Every `ndStart` trace either has no engine spawn event at all, or
decomposes as a spawn-free prefix, the cache removal and re-creation
events, at most a watchdog spawn, the engine spawn event recording the
freshly emptied cache directory, and a spawn-free remainder. -/
theorem ndStart_trace_form (cfg : NDConfig) (st : NDState) (env : StartEnv) :
    (∀ cd args, NDEvent.spawnRCloneProc cd args ∉ (ndStart cfg st env).2.2) ∨
    (∃ pre mid args0 suf, (ndStart cfg st env).2.2 =
      pre ++ NDEvent.cacheRm :: NDEvent.cacheEnsureDir ::
        (mid ++ NDEvent.spawnRCloneProc (some []) args0 :: suf) ∧
      (∀ cd args, NDEvent.spawnRCloneProc cd args ∉ pre) ∧
      (∀ ev ∈ mid, ev = NDEvent.spawnMonitorProc) ∧
      (∀ cd args, NDEvent.spawnRCloneProc cd args ∈ suf → False)) := by
  have hstop := (ndStop_trace_no_alloc_spawn cfg st env.initStop).2.2
  have hPort : ∀ p, ∀ cd args,
      NDEvent.spawnRCloneProc cd args ∉ [NDEvent.portAlloc p] :=
    fun p => no_spawn_singleton _ (by simp)
  have hWeb : ∀ cd args, NDEvent.spawnRCloneProc cd args ∉ [NDEvent.webdavStart] :=
    no_spawn_singleton _ (by simp)
  have hConf : ∀ cd args, NDEvent.spawnRCloneProc cd args ∉ [NDEvent.configWrite] :=
    no_spawn_singleton _ (by simp)
  simp only [ndStart]
  split
  · exact Or.inl hstop
  · split
    · exact Or.inl hstop
    · split
      · exact Or.inl hstop
      · split
        · exact Or.inl (no_spawn_append _ _ hstop (hPort _))
        · split
          · exact Or.inl (no_spawn_append _ _ (no_spawn_append _ _ hstop (hPort _)) hWeb)
          · split
            · exact Or.inl (no_spawn_append _ _ (no_spawn_append _ _ hstop (hPort _)) hWeb)
            · split
              · rcases spawnRClone_trace_cases cfg _ env.spawn with hno |
                    ⟨mid, args0, suf, hEq, hmid, hsuf⟩
                · exact Or.inl (no_spawn_append _ _
                    (no_spawn_append _ _
                      (no_spawn_append _ _ (no_spawn_append _ _ hstop (hPort _)) hWeb)
                      hConf) hno)
                · rw [hEq]
                  exact Or.inr ⟨_, mid, args0, suf, rfl,
                    no_spawn_append _ _
                      (no_spawn_append _ _ (no_spawn_append _ _ hstop (hPort _)) hWeb)
                      hConf, hmid, hsuf⟩
              · split
                · rcases spawnRClone_trace_cases cfg _ env.spawn with hno |
                      ⟨mid, args0, suf, hEq, hmid, hsuf⟩
                  · exact Or.inl (no_spawn_append _ _
                      (no_spawn_append _ _
                        (no_spawn_append _ _ (no_spawn_append _ _ hstop (hPort _)) hWeb)
                        hConf) hno)
                  · rw [hEq]
                    exact Or.inr ⟨_, mid, args0, suf, rfl,
                      no_spawn_append _ _
                        (no_spawn_append _ _ (no_spawn_append _ _ hstop (hPort _)) hWeb)
                        hConf, hmid, hsuf⟩
                · rcases spawnRClone_trace_cases cfg _ env.spawn with hno |
                      ⟨mid, args0, suf, hEq, hmid, hsuf⟩
                  · exact Or.inl (no_spawn_append _ _
                      (no_spawn_append _ _
                        (no_spawn_append _ _ (no_spawn_append _ _ hstop (hPort _)) hWeb)
                        hConf) hno)
                  · rw [hEq]
                    exact Or.inr ⟨_, mid, args0, suf, rfl,
                      no_spawn_append _ _
                        (no_spawn_append _ _ (no_spawn_append _ _ hstop (hPort _)) hWeb)
                        hConf, hmid, hsuf⟩

/-- C9: whenever an execution of `start()` reaches the engine spawn (an
engine spawn event occurs in its trace), the cache directory state
recorded at the spawn is the freshly re-created empty directory, and the
trace decomposes so that the cache directory removal and re-creation
events precede the spawn event: the engine always starts on a cache
directory that was deleted and recreated empty during this very
invocation. -/
theorem claim_c9_fresh_cache_before_spawn (cfg : NDConfig) (st : NDState)
    (env : StartEnv) (cd : Option (List String)) (args : List String)
    (h : NDEvent.spawnRCloneProc cd args ∈ (ndStart cfg st env).2.2) :
    cd = some [] ∧
    ∃ pre mid suf, (ndStart cfg st env).2.2 =
      pre ++ NDEvent.cacheRm :: NDEvent.cacheEnsureDir ::
        (mid ++ NDEvent.spawnRCloneProc cd args :: suf) := by
  rcases ndStart_trace_form cfg st env with hno |
      ⟨pre, mid, args0, suf, hEq, hpre, hmid, hsuf⟩
  · exact absurd h (hno cd args)
  · have hEv : cd = some [] ∧ args = args0 := by
      rw [hEq] at h
      simp only [List.mem_append, List.mem_cons] at h
      rcases h with h | h | h | h | h | h
      · exact absurd h (hpre cd args)
      · simp at h
      · simp at h
      · have := hmid _ h
        simp at this
      · injection h with h1 h2
        exact ⟨h1, h2⟩
      · exact (hsuf cd args h).elim
    obtain ⟨hcd, hargs⟩ := hEv
    refine ⟨hcd, pre, mid, suf, ?_⟩
    rw [hcd, hargs]
    exact hEq

/-- Witness for C9: in the concrete successful `start()` run the spawn
event records the empty cache directory and the removal/re-creation
events precede it. -/
theorem claim_c9_witness :
    (some [] : Option (List String)) = some [] ∧
    ∃ pre mid suf, (ndStart fixtureCfg initialNDState fixtureStartEnvOk).2.2 =
      pre ++ NDEvent.cacheRm :: NDEvent.cacheEnsureDir ::
        (mid ++ NDEvent.spawnRCloneProc (some [])
          (rcloneArgs fixtureCfg fixtureSpawnEnv.cachePath fixtureSpawnEnv.configPath 1906
            (getAvailableCacheSize fixtureSpawnEnv.statfsResult) false) :: suf) :=
  claim_c9_fresh_cache_before_spawn fixtureCfg initialNDState fixtureStartEnvOk
    (some [])
    (rcloneArgs fixtureCfg fixtureSpawnEnv.cachePath fixtureSpawnEnv.configPath 1906
      (getAvailableCacheSize fixtureSpawnEnv.statfsResult) false)
    (by decide)

/-- The loop of `generateRandomString` produces exactly `n` characters. -/
theorem generateRandomStringGo_length (rb : List Nat) :
    ∀ (n i c : Nat), (generateRandomStringGo rb n i c).length = n := by
  intro n
  induction n with
  | zero => intro i c; rfl
  | succ m ih =>
    intro i c
    simp only [generateRandomStringGo, List.length_cons, ih]

/-- Every character the loop of `generateRandomString` produces belongs to
the 62-character alphabet. -/
theorem generateRandomStringGo_mem (rb : List Nat) :
    ∀ (n i c : Nat) (x : Char),
      x ∈ generateRandomStringGo rb n i c → x ∈ randomStringChars := by
  intro n
  induction n with
  | zero =>
    intro i c x hx
    simp [generateRandomStringGo] at hx
  | succ m ih =>
    intro i c x hx
    simp only [generateRandomStringGo] at hx
    rcases List.mem_cons.mp hx with h | h
    · have hlen : 0 < randomStringChars.length := by decide
      have hidx : (c + rb.getD i 0) % randomStringChars.length < randomStringChars.length :=
        Nat.mod_lt _ hlen
      rw [h, List.getD_eq_getElem?_getD, List.getElem?_eq_getElem hidx, Option.getD_some]
      exact List.getElem_mem hidx
    · exact ih (i + 1) _ x h

/-- C10: for every byte stream and every length `n`,
`generateRandomString` returns a string of exactly `n` characters, each
drawn from the 62-character alphabet `a-z`, `A-Z`, `0-9`; in particular,
the per-session WebDAV username and password of every successful
`start()` are `generateRandomString` outputs of length 32, so they never
contain shell- or config-significant characters. -/
theorem claim_c10_random_string_alphabet :
    (∀ (rb : List Nat) (n : Nat),
      (generateRandomString rb n).length = n ∧
      ∀ x ∈ (generateRandomString rb n).toList, x ∈ randomStringChars) ∧
    (∀ (cfg : NDConfig) (st : NDState) (env : StartEnv),
      (ndStart cfg st env).1 = Except.ok () →
      (ndStart cfg st env).2.1.webdavUsername = generateRandomString env.rbUser 32 ∧
      (ndStart cfg st env).2.1.webdavPassword = generateRandomString env.rbPass 32) := by
  constructor
  · intro rb n
    constructor
    · simpa [generateRandomString] using generateRandomStringGo_length rb n 0 0
    · intro x hx
      exact generateRandomStringGo_mem rb n 0 0 x (by simpa [generateRandomString] using hx)
  · intro cfg st env
    simp only [ndStart]
    split
    · intro h
      simp at h
    · split
      · intro h
        simp at h
      · split
        · intro h
          simp at h
        · split
          · intro h
            simp at h
          · split
            · intro h
              simp at h
            · split
              · intro h
                simp at h
              · split
                · intro h
                  simp at h
                · split
                  · intro h
                    simp at h
                  · intro h
                    constructor
                    · simpa using (spawnRClone_preserves cfg _ env.spawn).1
                    · simpa using (spawnRClone_preserves cfg _ env.spawn).2.1

/-- Witness for C10: the concrete successful `start()` stores 32-character
`generateRandomString` credentials. -/
theorem claim_c10_witness :
    (generateRandomString fixtureStartEnvOk.rbUser 32).length = 32 ∧
    (ndStart fixtureCfg initialNDState fixtureStartEnvOk).2.1.webdavUsername =
      generateRandomString fixtureStartEnvOk.rbUser 32 ∧
    (ndStart fixtureCfg initialNDState fixtureStartEnvOk).2.1.webdavPassword =
      generateRandomString fixtureStartEnvOk.rbPass 32 :=
  ⟨(claim_c10_random_string_alphabet.1 fixtureStartEnvOk.rbUser 32).1,
    claim_c10_random_string_alphabet.2 fixtureCfg initialNDState fixtureStartEnvOk
      (by decide)⟩
